import Mathlib

/-
Shallow embedding of the streaming speech-recognition session lifecycle of
Project Alice, covering the two engine variants under src/core/asr/model:

- CoquiAsr.py (embedded engine): VAD trigger flag (onVadUp / onVadDown) and
  the decodeStream loop that feeds audio chunks to a stream context of the
  acoustic model, emits one intermediate ("partial") event per chunk and
  finalizes the stream once.
- SnipsAsr.py (delegated engine): listening flag (onStartListening /
  onAsrToggleOff), the polling decodeStream loop, and the onStart routine
  that builds the subprocess command line and launches the external process.

Machine-level details that the claims do not touch (actual audio hardware,
numpy buffer conversion, MQTT wire traffic, model weights) are abstracted:
the model capability is a parameter with the four operations the source
calls, and an audio chunk is the list of its int16 samples, the empty list
standing for the falsy sentinel chunk.
-/

namespace ProjectAlice

/-- An audio chunk as pulled from the recorder: the list of its signed 16-bit
samples (the source converts the raw bytes with np.frombuffer(chunk, np.int16)).
The empty list is the falsy sentinel meaning "source exhausted". -/
abbrev Chunk := List Int

/-- The duck-typed acoustic-model capability of CoquiAsr: a stream context of
type sigma with the four operations the decode loop calls
(createStream, feedAudioContent, intermediateDecode, finishStream). -/
structure SttModel (σ : Type) where
  createStream : σ
  feedAudioContent : σ → Chunk → σ
  intermediateDecode : σ → String
  finishStream : σ → String

/-- Read-only session data used by decodeStream (DialogSession in the source). -/
structure DialogSession where
  user : String
  deviceUid : String
deriving DecidableEq, Repr

/-- The result record returned by the embedded engine
(core.asr.model.ASRResult). likelihood and processingTime are modelled as
rationals; the source passes the float literal 1.0 and the stopwatch time. -/
structure ASRResult where
  text : String
  session : DialogSession
  likelihood : ℚ
  processingTime : ℚ
deriving DecidableEq, Repr

/-- One invocation of self.partialTextCaptured(session, text, likelihood,
seconds) inside the decode loop. -/
structure PartialEvent where
  text : String
  likelihood : ℚ
  seconds : ℚ
deriving DecidableEq, Repr

/-- Observable operations performed on a stream context, recorded in order so
that create/finish discipline can be stated. -/
inductive StreamOp
  | create
  | feed (chunk : Chunk)
  | intermediate
  | finish
deriving DecidableEq, Repr

/-- State of the CoquiAsr instance that the claims mention: the
asrTriggerFlag threading event (self.triggerFlag in the source). -/
structure CoquiState where
  triggerFlag : Bool
deriving DecidableEq, Repr

/-- CoquiAsr.onVadUp: self.triggerFlag.set() — sets the flag unconditionally. -/
def onVadUp (s : CoquiState) : CoquiState :=
  { s with triggerFlag := true }

/-- CoquiAsr.onVadDown: returns early when the flag is not set, otherwise
calls self.recorder.stopRecording(). The Bool of the pair records whether a
stop was requested. Note the source never clears the flag here. -/
def onVadDown (s : CoquiState) : CoquiState × Bool :=
  if ¬ s.triggerFlag then (s, false)
  else (s, true)

/-- Accumulated observable state of the decode loop of
CoquiAsr.decodeStream: the stream context, the Python variable result
(last intermediate decode, None before the first chunk), the partial events
emitted, and the stream-context operations performed. -/
structure LoopOut (σ : Type) where
  st : σ
  result : Option String
  events : List PartialEvent
  ops : List StreamOp

/-- The for-chunk-in-recorder loop of CoquiAsr.decodeStream: breaks at a
falsy (empty) chunk, otherwise feeds the chunk, queries the intermediate
decode into result and emits a partial event with likelihood 1, seconds 0. -/
def decodeLoop {σ : Type} (m : SttModel σ) (st : σ) (result : Option String)
    (events : List PartialEvent) (ops : List StreamOp) :
    List Chunk → LoopOut σ
  | [] => ⟨st, result, events, ops⟩
  | chunk :: rest =>
    if chunk = [] then ⟨st, result, events, ops⟩
    else
      let st' := m.feedAudioContent st chunk
      let r := m.intermediateDecode st'
      decodeLoop m st' (some r) (events ++ [⟨r, 1, 0⟩])
        (ops ++ [StreamOp.feed chunk, StreamOp.intermediate]) rest

/-- Python truthiness of the result variable: None and the empty string are
falsy, any non-empty string truthy. -/
def pyTruthy : Option String → Bool
  | none => false
  | some t => t ≠ ""

/-- Everything observable about one invocation of CoquiAsr.decodeStream. -/
structure DecodeOutcome where
  state : CoquiState
  result : Option ASRResult
  events : List PartialEvent
  ops : List StreamOp
deriving Repr

/-- CoquiAsr.decodeStream: creates a fresh stream context, runs the chunk
loop, then finishes the stream, clears the trigger flag, and returns an
ASRResult built from the finishStream text with likelihood 1.0 and the
stopwatch time exactly when the result variable is truthy.
The chunk sequence the recorder yielded during the session (however it
ended: stop, timeout or hardware sentinel) is the chunks argument;
processingTime is the stopwatch measurement. -/
def decodeStream {σ : Type} (m : SttModel σ) (s : CoquiState)
    (session : DialogSession) (chunks : List Chunk) (processingTime : ℚ) :
    DecodeOutcome :=
  let out := decodeLoop m m.createStream none [] [StreamOp.create] chunks
  let text := m.finishStream out.st
  { state := { s with triggerFlag := false }
    result :=
      if pyTruthy out.result then
        some { text := text, session := session, likelihood := 1,
               processingTime := processingTime }
      else none
    events := out.events
    ops := out.ops ++ [StreamOp.finish] }

/-- State of the SnipsAsr instance that the claims mention: the listening
instance flag. -/
structure SnipsState where
  listening : Bool
deriving DecidableEq, Repr

/-- SnipsAsr.onStartListening: self.listening = True. -/
def onStartListening (s : SnipsState) : SnipsState :=
  { s with listening := true }

/-- SnipsAsr.onAsrToggleOff(deviceUid): self.listening = False — the
deviceUid argument is ignored by the body. -/
def onAsrToggleOff (_deviceUid : String) (s : SnipsState) : SnipsState :=
  { s with listening := false }

/-- SnipsAsr.decodeStream: while self.listening: time.sleep(0.1). The
argument is the finite sequence of flag values the loop condition reads
(the shared flag as mutated concurrently by onStartListening /
onAsrToggleOff). Returns none when every observed reading was true (the
call is still blocked after the observations), and some (r, k) when the
loop exited: r is the Python return value (None — no ASRResult) and k the
number of 0.1 s sleeps performed. -/
def snipsDecodeStream : List Bool → Option (Option ASRResult × Nat)
  | [] => none
  | b :: bs =>
    if b then (snipsDecodeStream bs).map (fun rk => (rk.1, rk.2 + 1))
    else some (none, 0)

/-- Alice configuration values read by SnipsAsr.onStart. Optional values
follow Python truthiness: the empty string is "not configured". -/
structure AliceConfig where
  mqttHost : String
  mqttPort : String
  mqttUser : String
  mqttPassword : String
  mqttTLSFile : String
deriving DecidableEq, Repr

/-- One fragment of the snips-asr command line. Each constructor corresponds
to one string append in SnipsAsr.onStart: base is the initial
f-string (assistant directory, broker host and port), credentials the
conditional username/password append, tlsCafile the conditional TLS append,
model and partFlag the two final unconditional appends
(the model directory and the partial-results flag). -/
inductive CmdPart
  | base (rootDir host port : String)
  | credentials (user password : String)
  | tlsCafile (file : String)
  | model (dir : String)
  | partFlag
deriving DecidableEq, Repr

/-- Renders a fragment to the exact text SnipsAsr.onStart appends for it. -/
def renderPart : CmdPart → String
  | CmdPart.base rootDir host port =>
      "snips-asr --assistant " ++ rootDir ++ "/assistant --mqtt " ++ host ++ ":" ++ port
  | CmdPart.credentials user password =>
      " --mqtt-username " ++ user ++ " --mqtt-password " ++ password
  | CmdPart.tlsCafile file => " --mqtt-tls-cafile " ++ file
  | CmdPart.model dir => " --model " ++ dir
  | CmdPart.partFlag => " --partial"

/-- The sequence of appends SnipsAsr.onStart performs to build cmd: the base
part always, the credentials part exactly when mqttUser is truthy, the TLS
part exactly when mqttTLSFile is truthy, then the model directory and the
partial-results flag. -/
def snipsCmdParts (rootDir : String) (c : AliceConfig) : List CmdPart :=
  [CmdPart.base rootDir c.mqttHost c.mqttPort]
    ++ (if c.mqttUser ≠ "" then [CmdPart.credentials c.mqttUser c.mqttPassword] else [])
    ++ (if c.mqttTLSFile ≠ "" then [CmdPart.tlsCafile c.mqttTLSFile] else [])
    ++ [CmdPart.model "/usr/share/snips/snips-asr-model-en-500MB", CmdPart.partFlag]

/-- The full cmd string of SnipsAsr.onStart: the concatenation of the
rendered fragments, in append order. -/
def snipsCmd (rootDir : String) (c : AliceConfig) : String :=
  String.join ((snipsCmdParts rootDir c).map renderPart)

/-- A call to SubprocessManager.runSubprocess. -/
structure Launch where
  name : String
  cmd : String
  autoRestart : Bool
deriving DecidableEq, Repr

/-- Outcome of SnipsAsr.onStart: the raised exception message, if any, and
the subprocess launches performed. -/
structure StartOutcome where
  error : Option String
  launched : List Launch
deriving DecidableEq, Repr

/-- SnipsAsr.onStart: raises when the active language is not en, before any
subprocess work; otherwise builds cmd and launches SnipsASR with
autoRestart=True. -/
def snipsOnStart (activeLanguage rootDir : String) (c : AliceConfig) :
    StartOutcome :=
  if activeLanguage ≠ "en" then
    { error := some "Snips generic ASR only for english", launched := [] }
  else
    { error := none
      launched := [{ name := "SnipsASR", cmd := snipsCmd rootDir c,
                     autoRestart := true }] }

/-- Intermediate texts the loop observes, one per processed (non-sentinel)
chunk: the intermediate decode of the stream context right after feeding
that chunk. -/
def chunkTexts {σ : Type} (m : SttModel σ) (st : σ) : List Chunk → List String
  | [] => []
  | c :: cs =>
    if c = [] then []
    else
      let st' := m.feedAudioContent st c
      m.intermediateDecode st' :: chunkTexts m st' cs

/-- Stream-context operations the loop performs, two per processed chunk. -/
def chunkOps {σ : Type} (m : SttModel σ) (st : σ) : List Chunk → List StreamOp
  | [] => []
  | c :: cs =>
    if c = [] then []
    else
      StreamOp.feed c :: StreamOp.intermediate ::
        chunkOps m (m.feedAudioContent st c) cs

/-- Concrete model instance used as a test vehicle: its intermediate
hypothesis is "hi" after one fed chunk and empty after any other number,
so a session feeding two chunks sees a non-empty then an empty
intermediate decode. -/
def fadingModel : SttModel Nat :=
  { createStream := 0
    feedAudioContent := fun st _ => st + 1
    intermediateDecode := fun st => if st = 1 then "hi" else ""
    finishStream := fun _ => "hi there" }

/-- Concrete session used by witnesses. -/
def sess0 : DialogSession := ⟨"u", "d"⟩

/-- Concrete configuration used by witnesses: no broker credentials and no
TLS file configured. -/
def cfg0 : AliceConfig := ⟨"localhost", "1883", "", "", ""⟩

/-- Unfolding lemma: the post-decode instance state. -/
theorem decodeStream_state {σ : Type} (m : SttModel σ) (s : CoquiState)
    (sess : DialogSession) (chunks : List Chunk) (τ : ℚ) :
    (decodeStream m s sess chunks τ).state = { triggerFlag := false } := rfl

/-- Unfolding lemma: the returned ASRResult of decodeStream. -/
theorem decodeStream_result {σ : Type} (m : SttModel σ) (s : CoquiState)
    (sess : DialogSession) (chunks : List Chunk) (τ : ℚ) :
    (decodeStream m s sess chunks τ).result =
      (if pyTruthy (decodeLoop m m.createStream none [] [StreamOp.create] chunks).result then
        some { text := m.finishStream
                  (decodeLoop m m.createStream none [] [StreamOp.create] chunks).st,
               session := sess, likelihood := 1, processingTime := τ }
      else none) := rfl

/-- Unfolding lemma: the partial events of decodeStream are those of the loop. -/
theorem decodeStream_events {σ : Type} (m : SttModel σ) (s : CoquiState)
    (sess : DialogSession) (chunks : List Chunk) (τ : ℚ) :
    (decodeStream m s sess chunks τ).events =
      (decodeLoop m m.createStream none [] [StreamOp.create] chunks).events := rfl

/-- Unfolding lemma: the stream operations of decodeStream. -/
theorem decodeStream_ops {σ : Type} (m : SttModel σ) (s : CoquiState)
    (sess : DialogSession) (chunks : List Chunk) (τ : ℚ) :
    (decodeStream m s sess chunks τ).ops =
      (decodeLoop m m.createStream none [] [StreamOp.create] chunks).ops
        ++ [StreamOp.finish] := rfl

/-- The result variable of the loop always holds the text of the last
partial event emitted so far (None when none has been emitted). -/
theorem decodeLoop_result_getLast {σ : Type} (m : SttModel σ) (st : σ)
    (result : Option String) (events : List PartialEvent) (ops : List StreamOp)
    (chunks : List Chunk)
    (h : result = events.getLast?.map PartialEvent.text) :
    (decodeLoop m st result events ops chunks).result =
      ((decodeLoop m st result events ops chunks).events.getLast?).map
        PartialEvent.text := by
  induction chunks generalizing st result events ops with
  | nil => simpa [decodeLoop] using h
  | cons c cs ih =>
    by_cases hc : c = []
    · simpa [decodeLoop, hc] using h
    · simp only [decodeLoop, if_neg hc]
      exact ih _ _ _ _ (by simp [List.getLast?_concat])

/-- The partial events appended by the loop are exactly the intermediate
texts of the processed chunks, each wrapped with likelihood 1, seconds 0. -/
theorem decodeLoop_events_eq {σ : Type} (m : SttModel σ) (st : σ)
    (result : Option String) (events : List PartialEvent) (ops : List StreamOp)
    (chunks : List Chunk) :
    (decodeLoop m st result events ops chunks).events =
      events ++ (chunkTexts m st chunks).map
        (fun t => { text := t, likelihood := 1, seconds := 0 }) := by
  induction chunks generalizing st result events ops with
  | nil => simp [decodeLoop, chunkTexts]
  | cons c cs ih =>
    by_cases hc : c = []
    · simp [decodeLoop, chunkTexts, hc]
    · simp [decodeLoop, chunkTexts, hc, ih]

/-- The stream operations appended by the loop are exactly chunkOps. -/
theorem decodeLoop_ops_eq {σ : Type} (m : SttModel σ) (st : σ)
    (result : Option String) (events : List PartialEvent) (ops : List StreamOp)
    (chunks : List Chunk) :
    (decodeLoop m st result events ops chunks).ops = ops ++ chunkOps m st chunks := by
  induction chunks generalizing st result events ops with
  | nil => simp [decodeLoop, chunkOps]
  | cons c cs ih =>
    by_cases hc : c = []
    · simp [decodeLoop, chunkOps, hc]
    · simp [decodeLoop, chunkOps, hc, ih]

/-- One intermediate text per chunk of the non-sentinel prefix. -/
theorem chunkTexts_length {σ : Type} (m : SttModel σ) (st : σ)
    (chunks : List Chunk) :
    (chunkTexts m st chunks).length =
      (chunks.takeWhile (fun c => !c.isEmpty)).length := by
  induction chunks generalizing st with
  | nil => simp [chunkTexts]
  | cons c cs ih =>
    cases c with
    | nil => simp [chunkTexts, List.takeWhile_cons]
    | cons a t => simp [chunkTexts, List.takeWhile_cons, ih]

/-- The per-chunk operations contain no create and no finish. -/
theorem chunkOps_counts {σ : Type} (m : SttModel σ) (st : σ)
    (chunks : List Chunk) :
    (chunkOps m st chunks).count StreamOp.create = 0 ∧
    (chunkOps m st chunks).count StreamOp.finish = 0 := by
  induction chunks generalizing st with
  | nil => simp [chunkOps]
  | cons c cs ih =>
    by_cases hc : c = [] <;> simp [chunkOps, hc, List.count_cons, ih]

/-- C1 (counterexample): as stated, the claim "decodeStream yields no
ASRResult if and only if every partial intermediate decode produced empty
text" is false: with a model whose intermediate hypothesis is "hi" after
the first chunk and empty after the second, a two-chunk session emits a
non-empty partial yet yields no ASRResult, because the source keys the
decision on the last intermediate decode only. -/
theorem coqui_noResult_iff_allEmpty_cex :
    ¬ (((decodeStream fadingModel { triggerFlag := false } sess0 [[1], [2]] 0).result
          = none) ↔
       (∀ e ∈ (decodeStream fadingModel { triggerFlag := false } sess0 [[1], [2]] 0).events,
          e.text = "")) := by
  decide

/-- C1 (amended): a session yields no ASRResult if and only if the last
partial intermediate decode of the session was empty, or no partial decode
happened at all; equivalently, if the last partial decode returned
non-empty text an ASRResult is produced. -/
theorem coqui_noResult_iff_lastEmpty {σ : Type} (m : SttModel σ)
    (s : CoquiState) (sess : DialogSession) (chunks : List Chunk) (τ : ℚ) :
    (decodeStream m s sess chunks τ).result = none ↔
      (((decodeStream m s sess chunks τ).events.getLast?).map PartialEvent.text = none ∨
       ((decodeStream m s sess chunks τ).events.getLast?).map PartialEvent.text
          = some "") := by
  have h := decodeLoop_result_getLast m m.createStream none [] [StreamOp.create]
    chunks (by simp)
  rw [decodeStream_result, decodeStream_events, ← h]
  cases hr : (decodeLoop m m.createStream none [] [StreamOp.create] chunks).result with
  | none => simp [pyTruthy]
  | some t => by_cases ht : t = "" <;> simp [pyTruthy, ht]

/-- C2 (counterexample): the claimed behaviour of onVadDown — with the flag
set, it "clears the flag and requests the recorder to stop" — is false: at
a state with the flag set, onVadDown does request the stop but leaves the
flag set. -/
theorem vadDown_clears_flag_cex :
    ¬ ((onVadDown { triggerFlag := true }).1.triggerFlag = false ∧
       (onVadDown { triggerFlag := true }).2 = true) := by
  decide

/-- C2 (amended): onVadUp sets the flag unconditionally; onVadDown is a
conditional stop trigger: if the flag is set it requests the recorder to
stop but leaves the flag set (the flag is only cleared by decodeStream at
session end); if the flag is clear it does nothing and requests no stop. -/
theorem vadGate_contract (s : CoquiState) :
    (onVadUp s).triggerFlag = true ∧
    (s.triggerFlag = true → onVadDown s = (s, true)) ∧
    (s.triggerFlag = false → onVadDown s = (s, false)) := by
  refine ⟨rfl, ?_, ?_⟩ <;> intro h <;> simp [onVadDown, h]

/-- C2 (witness): at a state with the flag set, onVadUp keeps it set and
onVadDown requests the stop while leaving the state unchanged. -/
theorem vadGate_contract_witness :
    (onVadUp { triggerFlag := true }).triggerFlag = true ∧
    onVadDown { triggerFlag := true } = ({ triggerFlag := true }, true) :=
  ⟨(vadGate_contract { triggerFlag := true }).1,
   (vadGate_contract { triggerFlag := true }).2.1 rfl⟩

/-- C3: whenever decodeStream returns an ASRResult, its text is exactly the
value finishStream returned for the session's stream context (the loop's
final context state) and its likelihood is 1.0. -/
theorem coqui_result_text_finishStream {σ : Type} (m : SttModel σ)
    (s : CoquiState) (sess : DialogSession) (chunks : List Chunk) (τ : ℚ)
    (r : ASRResult)
    (h : (decodeStream m s sess chunks τ).result = some r) :
    r.text = m.finishStream
        (decodeLoop m m.createStream none [] [StreamOp.create] chunks).st ∧
    r.likelihood = 1 := by
  rw [decodeStream_result] at h
  split at h
  · injection h with h
    subst h
    exact ⟨rfl, rfl⟩
  · exact Option.noConfusion h

/-- C3 (witness): a one-chunk session of the test model returns an
ASRResult whose text is the finishStream value and whose likelihood is 1. -/
theorem coqui_result_text_finishStream_witness :
    (({ text := "hi there", session := sess0, likelihood := 1,
        processingTime := 0 } : ASRResult)).text
      = fadingModel.finishStream
          (decodeLoop fadingModel fadingModel.createStream none []
            [StreamOp.create] [[1]]).st ∧
    (({ text := "hi there", session := sess0, likelihood := 1,
        processingTime := 0 } : ASRResult)).likelihood = 1 :=
  coqui_result_text_finishStream fadingModel { triggerFlag := false } sess0 [[1]] 0
    { text := "hi there", session := sess0, likelihood := 1, processingTime := 0 }
    (by decide)

/-- C4: the partial events of a session are exactly one per non-sentinel
chunk processed — the intermediate decode after feeding that chunk, wrapped
with likelihood 1 and seconds 0 — and their count equals the length of the
non-sentinel prefix of the chunk sequence; with zero chunks there are zero
partial events and no result. -/
theorem coqui_partialEvents_per_chunk {σ : Type} (m : SttModel σ)
    (s : CoquiState) (sess : DialogSession) (chunks : List Chunk) (τ : ℚ) :
    (decodeStream m s sess chunks τ).events
        = (chunkTexts m m.createStream chunks).map
            (fun t => { text := t, likelihood := 1, seconds := 0 }) ∧
    (chunkTexts m m.createStream chunks).length
        = (chunks.takeWhile (fun c => !c.isEmpty)).length ∧
    (chunks = [] → (decodeStream m s sess chunks τ).events = [] ∧
        (decodeStream m s sess chunks τ).result = none) := by
  refine ⟨?_, chunkTexts_length m m.createStream chunks, ?_⟩
  · rw [decodeStream_events, decodeLoop_events_eq]
    simp
  · rintro rfl
    refine ⟨?_, ?_⟩
    · rw [decodeStream_events, decodeLoop_events_eq]
      simp [chunkTexts]
    · rw [decodeStream_result]
      simp [decodeLoop, pyTruthy]

/-- C4 (witness): the zero-chunk session of the test model emits no partial
event and yields no result. -/
theorem coqui_partialEvents_per_chunk_witness :
    (decodeStream fadingModel { triggerFlag := false } sess0 [] 0).events = [] ∧
    (decodeStream fadingModel { triggerFlag := false } sess0 [] 0).result = none :=
  (coqui_partialEvents_per_chunk fadingModel { triggerFlag := false } sess0 [] 0).2.2
    rfl

/-- C5: every decodeStream invocation performs exactly one createStream, as
its first stream-context operation, and exactly one finishStream, as its
last: the stream context is fresh per invocation and never finished twice
nor used after finishing. -/
theorem coqui_streamContext_lifecycle {σ : Type} (m : SttModel σ)
    (s : CoquiState) (sess : DialogSession) (chunks : List Chunk) (τ : ℚ) :
    (decodeStream m s sess chunks τ).ops.head? = some StreamOp.create ∧
    (decodeStream m s sess chunks τ).ops.getLast? = some StreamOp.finish ∧
    (decodeStream m s sess chunks τ).ops.count StreamOp.create = 1 ∧
    (decodeStream m s sess chunks τ).ops.count StreamOp.finish = 1 := by
  rw [decodeStream_ops, decodeLoop_ops_eq]
  have hc := chunkOps_counts m m.createStream chunks
  refine ⟨by simp, List.getLast?_concat _, ?_, ?_⟩
  · simp [List.count_append, hc.1]
  · simp [List.count_append, hc.2]

/-- C6: SnipsAsr.onStart raises exactly when the active language is not
English, and on that error no subprocess is launched — the raise happens
before the supervised launch. -/
theorem snips_onStart_language_gate (lang rootDir : String) (c : AliceConfig) :
    ((snipsOnStart lang rootDir c).error ≠ none ↔ lang ≠ "en") ∧
    (lang ≠ "en" → (snipsOnStart lang rootDir c).launched = []) := by
  by_cases h : lang = "en" <;> simp [snipsOnStart, h]

/-- C6 (witness): started under French, the delegated engine errors out and
launches nothing. -/
theorem snips_onStart_language_gate_witness :
    (snipsOnStart "fr" "/home/pi/ProjectAlice" cfg0).launched = [] :=
  (snips_onStart_language_gate "fr" "/home/pi/ProjectAlice" cfg0).2 (by decide)

/-- C7: the delegated decodeStream keeps sleeping while every reading of
the listening flag is true; as soon as a reading is false (after
onAsrToggleOff, or immediately if listening was never set) it terminates,
having slept once per true reading, and whenever it terminates it returns
no ASRResult. -/
theorem snips_decode_blocks_until_false (obs : List Bool) :
    (false ∈ obs →
      snipsDecodeStream obs = some (none, (obs.takeWhile id).length)) ∧
    (∀ r k, snipsDecodeStream obs = some (r, k) → r = none) := by
  induction obs with
  | nil => exact ⟨by simp, by simp [snipsDecodeStream]⟩
  | cons b bs ih =>
    cases b with
    | false =>
      refine ⟨fun _ => by simp [snipsDecodeStream, List.takeWhile_cons], ?_⟩
      intro r k h
      simp [snipsDecodeStream] at h
      exact h.1.symm
    | true =>
      refine ⟨fun hmem => ?_, ?_⟩
      · have hbs : false ∈ bs := by
          rcases List.mem_cons.mp hmem with h | h
          · exact absurd h.symm (by simp)
          · exact h
        simp [snipsDecodeStream, ih.1 hbs, List.takeWhile_cons]
      · intro r k h
        have hdef : snipsDecodeStream (true :: bs)
            = (snipsDecodeStream bs).map (fun rk => (rk.1, rk.2 + 1)) := rfl
        rw [hdef] at h
        cases hbs : snipsDecodeStream bs with
        | none => rw [hbs] at h; exact Option.noConfusion h
        | some rk =>
          rw [hbs] at h
          have h2 : (rk.1, rk.2 + 1) = (r, k) := by simpa using h
          have hr : rk.1 = r := congrArg Prod.fst h2
          exact hr ▸ ih.2 rk.1 rk.2 (by rw [hbs])

/-- C7 (witness): with two true readings then a false one, the delegated
decode call terminates after two sleeps and returns no ASRResult. -/
theorem snips_decode_blocks_until_false_witness :
    snipsDecodeStream [true, true, false]
      = some (none, (([true, true, false].takeWhile id).length)) :=
  (snips_decode_blocks_until_false [true, true, false]).1 (by decide)

/-- C8: the subprocess command line always contains the assistant
directory, broker host and port (the base fragment), the model directory
and the partial-results flag; it contains the broker username and password
exactly when a broker username is configured and the TLS certificate file
exactly when one is configured; and under the supported language the
process is launched with autoRestart enabled. -/
theorem snips_cmd_construction (rootDir : String) (c : AliceConfig) :
    CmdPart.base rootDir c.mqttHost c.mqttPort ∈ snipsCmdParts rootDir c ∧
    CmdPart.model "/usr/share/snips/snips-asr-model-en-500MB" ∈ snipsCmdParts rootDir c ∧
    CmdPart.partFlag ∈ snipsCmdParts rootDir c ∧
    (CmdPart.credentials c.mqttUser c.mqttPassword ∈ snipsCmdParts rootDir c
        ↔ c.mqttUser ≠ "") ∧
    (CmdPart.tlsCafile c.mqttTLSFile ∈ snipsCmdParts rootDir c
        ↔ c.mqttTLSFile ≠ "") ∧
    (snipsOnStart "en" rootDir c).launched
        = [{ name := "SnipsASR", cmd := snipsCmd rootDir c, autoRestart := true }] := by
  by_cases hu : c.mqttUser = "" <;> by_cases ht : c.mqttTLSFile = "" <;>
    simp [snipsCmdParts, snipsOnStart, hu, ht]

/-- C9: onAsrToggleOff ignores its deviceUid argument — any two device
identifiers produce the same resulting state — and always leaves the shared
listening flag false, so a toggle-off for any device unblocks the loop. -/
theorem snips_toggleOff_device_independent (u1 u2 : String) (s : SnipsState) :
    onAsrToggleOff u1 s = onAsrToggleOff u2 s ∧
    (onAsrToggleOff u1 s).listening = false :=
  ⟨rfl, rfl⟩

/-- C10: after every normally completed decodeStream invocation the VAD
trigger flag is clear, whatever the flag state accumulated during the
session, and an onVadDown on the post-session state requests no stop. -/
theorem coqui_flag_clear_after_decode {σ : Type} (m : SttModel σ)
    (s : CoquiState) (sess : DialogSession) (chunks : List Chunk) (τ : ℚ) :
    (decodeStream m s sess chunks τ).state.triggerFlag = false ∧
    onVadDown ((decodeStream m s sess chunks τ).state)
      = ((decodeStream m s sess chunks τ).state, false) := by
  rw [decodeStream_state]
  exact ⟨rfl, by simp [onVadDown]⟩

end ProjectAlice
